import Mathlib

/-!
Verification of the Harmony Scheduler scoring engine
(`js/core/Config.js` configuration, `js/core/HarmonyEngine.js` engine,
`js/utils/MathUtils.js`, `js/utils/DateUtils.js`).

Timestamps are modelled as a calendar day (the `YYYY-MM-DD` prefix used by
`DateUtils.groupByDay`) together with a rational minute-of-day; JS numbers are
modelled as exact rationals.  Scores are integers (`Int`), matching the fact
that every scorer returns a mathematical integer.
-/

namespace Harmony

/-- Model of an ISO timestamp: `day` is the calendar date used as day key,
`minute` the minute of that day.  `new Date(t).getTime()` in minutes is
`day * 1440 + minute`. -/
structure Timestamp where
  day : Int
  minute : ℚ
deriving DecidableEq

def Timestamp.absMinutes (t : Timestamp) : ℚ := (t.day : ℚ) * 1440 + t.minute

/-- Hour read by `new Date(t).getHours()` for a minute-of-day timestamp. -/
def Timestamp.getHours (t : Timestamp) : Int := ⌊t.minute / 60⌋

/-- Source event record; fields as in the source (`start`, `end`, `type`,
`status`); descriptive fields irrelevant to scoring are omitted. -/
structure Appointment where
  start : Timestamp
  «end» : Timestamp
  type : String
  status : String
deriving DecidableEq

/-- Source `DateUtils.minutesBetween(startISO, endISO)`: signed difference in
minutes. -/
def minutesBetween (a b : Timestamp) : ℚ := b.absMinutes - a.absMinutes

/-- Stable insertion step used to model `DateUtils.sortByStartTime`
(JS `Array.prototype.sort` is stable). -/
def insertByStart (a : Appointment) : List Appointment → List Appointment
  | [] => [a]
  | b :: r =>
    if a.start.absMinutes ≤ b.start.absMinutes then a :: b :: r else b :: insertByStart a r

/-- Source `DateUtils.sortByStartTime`: stable sort by start time. -/
def sortByStartTime (l : List Appointment) : List Appointment := l.foldr insertByStart []

/-- Day keys of `DateUtils.groupByDay`, in first-occurrence order (JS object
key insertion order for `YYYY-MM-DD` string keys). -/
def dayKeys (l : List Appointment) : List Int :=
  l.foldl (fun acc ev => if acc.contains ev.start.day then acc else acc ++ [ev.start.day]) []

/-- Bucket of one day key, `byDay[d]`; `push` preserves input order. -/
def dayGroup (l : List Appointment) (d : Int) : List Appointment :=
  l.filter (fun ev => ev.start.day == d)

/-- Model of `Object.values(DateUtils.groupByDay(l))`, buckets in key order. -/
def groupByDayValues (l : List Appointment) : List (List Appointment) :=
  (dayKeys l).map (dayGroup l)

/-- Ascending insertion for integer day keys. -/
def insertInt (d : Int) : List Int → List Int
  | [] => [d]
  | e :: r => if d ≤ e then d :: e :: r else e :: insertInt d r

/-- Model of `Object.keys(byDay).sort()`: day keys in ascending (chronological)
order, matching lexicographic order of `YYYY-MM-DD` strings. -/
def sortedDayKeys (l : List Appointment) : List Int := (dayKeys l).foldr insertInt []

/-- Source `MathUtils.average` (0 for the empty list). -/
def average (l : List ℚ) : ℚ := if l.length = 0 then 0 else l.sum / l.length

/-- Source `MathUtils.variance` (0 when fewer than two values).  The engine
uses only the comparison `MathUtils.standardDeviation counts > 3`; since both
sides are nonnegative this is equivalent to `variance counts > 9`, which keeps
the development inside the rationals. -/
def variance (l : List ℚ) : ℚ :=
  if l.length < 2 then 0 else (l.map (fun n => (n - average l) ^ 2)).sum / l.length

/-- Model of `Math.max(...counts)` on a nonempty list (the engine only calls it
on nonempty count lists). -/
def listMax : List ℚ → ℚ
  | [] => 0
  | x :: r => r.foldl max x

/-- Source `MathUtils.clamp` restricted to integers, as used on scores. -/
def clampInt (v lo hi : Int) : Int := min (max v lo) hi

/-- Engine settings used by the claims; `breakDuration` defaults to
`CONFIG.DEFAULT_PROFESSIONAL.breakDuration = 20` minutes. -/
structure Settings where
  breakDuration : ℚ
deriving DecidableEq

def defaultSettings : Settings := ⟨20⟩

/-- Source `HarmonyEngine._filterAppointments`: keep `appointment`-typed,
non-cancelled events. -/
def filterAppointments (events : List Appointment) : List Appointment :=
  events.filter (fun ev => ev.type == "appointment" && ev.status != "cancelled")

/-- Source `HarmonyEngine._calculateTotalWorkMinutes`; the `isNaN` guard of the
source is vacuous here because rational timestamps are never NaN. -/
def totalWorkMinutes (events : List Appointment) : ℚ :=
  events.foldl (fun sum ev => sum + minutesBetween ev.start ev.«end») 0

/-- Source `HarmonyEngine._isEveningEvent` (start hour at or past
`CONFIG.THRESHOLDS.EVENING_HOUR = 18`). -/
def isEveningEvent (ev : Appointment) : Bool := decide (18 ≤ ev.start.getHours)

/-- Source `HarmonyEngine._isNightEvent` (start hour at or past
`CONFIG.THRESHOLDS.NIGHT_HOUR = 21`). -/
def isNightEvent (ev : Appointment) : Bool := decide (21 ≤ ev.start.getHours)

/-- Source `HarmonyEngine._computeDailyLoadScore` (Config.js lines 1154-1180).
Thresholds are `CONFIG.THRESHOLDS.DAILY` = OPTIMAL 4 / GOOD 6 / WARNING 8 /
DANGER 10 / CRITICAL 12; the source comparison `stdDev > 3` is encoded as
`variance > 9` (see `variance`). -/
def computeDailyLoadScore (apps : List Appointment) : Int :=
  if apps.length = 0 then 100 else
  let counts : List ℚ := (groupByDayValues apps).map (fun evs => (evs.length : ℚ))
  let avgCount := average counts
  let maxCount := listMax counts
  let meanPen : Int :=
    if avgCount > 12 then -45 else if avgCount > 10 then -35
    else if avgCount > 8 then -20 else if avgCount > 6 then -10 else 0
  let maxPen : Int := if maxCount > 12 then -25 else if maxCount > 10 then -15 else 0
  let sdPen : Int := if variance counts > 9 then -10 else 0
  max 0 (100 + meanPen + maxPen + sdPen)

/-- Gaps in minutes between consecutive appointments of one (sorted) day. -/
def consecutiveGaps : List Appointment → List ℚ
  | a :: b :: r => minutesBetween a.«end» b.start :: consecutiveGaps (b :: r)
  | _ => []

/-- All per-day consecutive gaps (each day sorted by start time), in day-key
order; this is the gap multiset traversed by the break-compliance loop. -/
def allGaps (apps : List Appointment) : List ℚ :=
  ((groupByDayValues apps).map (fun dayEvents => consecutiveGaps (sortByStartTime dayEvents))).flatten

/-- Source `HarmonyEngine._computeBreakComplianceScore` (lines 1182-1212). -/
def computeBreakComplianceScore (s : Settings) (apps : List Appointment) : Int :=
  if apps.length < 2 then 100 else
  let gaps := allGaps apps
  let totalGaps := gaps.length
  let compliantGaps := (gaps.filter (fun g => decide (s.breakDuration ≤ g))).length
  let complianceFrac : ℚ := if totalGaps = 0 then 1 else (compliantGaps : ℚ) / totalGaps
  let avgGap : ℚ := if totalGaps = 0 then s.breakDuration else gaps.sum / totalGaps
  let generosityBonus : Int := if avgGap > s.breakDuration * (3 / 2 : ℚ) then 5 else 0
  min 100 (round (complianceFrac * 100) + generosityBonus)

/-- Source `HarmonyEngine._computeEveningWorkScore` (lines 1214-1227). -/
def computeEveningWorkScore (apps : List Appointment) : Int :=
  if apps.length = 0 then 100 else
  let eveningFrac : ℚ := ((apps.filter isEveningEvent).length : ℚ) / apps.length
  let nightFrac : ℚ := ((apps.filter isNightEvent).length : ℚ) / apps.length
  max 0 (round ((100 : ℚ) - (eveningFrac * 40 + nightFrac * 60)))

/-- Weekly-balance value as a function of the total scheduled hours; body of
source `HarmonyEngine._computeWeeklyBalanceScore` after `totalHours` is
computed.  Bands are `CONFIG.THRESHOLDS.WEEKLY` = 25 / 32 / 40 / 50 hours. -/
def weeklyBalanceOfHours (totalHours : ℚ) : Int :=
  if totalHours = 0 then 100
  else if totalHours ≤ 25 then 100
  else if totalHours ≤ 32 then max 80 (100 - round ((totalHours - 25) * 3))
  else if totalHours ≤ 40 then max 60 (80 - round ((totalHours - 32) * (5 / 2 : ℚ)))
  else if totalHours ≤ 50 then max 30 (60 - round ((totalHours - 40) * 3))
  else max 0 (30 - round ((totalHours - 50) * 2))

/-- Source `HarmonyEngine._computeWeeklyBalanceScore` (lines 1229-1250). -/
def computeWeeklyBalanceScore (apps : List Appointment) : Int :=
  weeklyBalanceOfHours (totalWorkMinutes apps / 60)

structure RecoveryMetrics where
  breakQuality : ℚ
  actualRecoveryHours : ℚ
deriving DecidableEq

/-- Modelled from the spec: `HarmonyEngine._calculateRecoveryMetrics` is not
among the provided sources (the engine file is cut at its "additional methods"
marker).  Spec section 4.1, Recovery Metrics: break quality is the intra-day
gap compliance fraction in [0,1] (same day-scoped gap analysis as Break
Compliance, 1 when there is no gap), and actual recovery hours is the sum of
the gap durations with gap at least breakDuration, converted to hours;
inter-day idle time does not count. -/
def calculateRecoveryMetrics (s : Settings) (apps : List Appointment) : RecoveryMetrics :=
  let gaps := allGaps apps
  let compliant := gaps.filter (fun g => decide (s.breakDuration ≤ g))
  { breakQuality := if gaps.length = 0 then 1 else (compliant.length : ℚ) / gaps.length
    actualRecoveryHours := compliant.sum / 60 }

/-- Source `HarmonyEngine._computeRecoveryAdequacyScore` (lines 1252-1266);
the ideal recovery target is total hours times the ideal break share 0.25. -/
def computeRecoveryAdequacyScore (s : Settings) (apps : List Appointment) : Int :=
  if apps.length = 0 then 100 else
  let m := calculateRecoveryMetrics s apps
  let idealRecovery := totalWorkMinutes apps / 60 * (1 / 4 : ℚ)
  if m.actualRecoveryHours ≥ idealRecovery then 100
  else round (m.actualRecoveryHours / idealRecovery * 100)

/-- Stress points contributed by one gap: 2 below 10 minutes, 1 below 20. -/
def gapStressPoints (g : ℚ) : ℕ := if g < 10 then 2 else if g < 20 then 1 else 0

/-- Source `PredictiveStressModel.predictStressLevel` (lines 1383-1420).  The
consecutive-intensive scan is the source loop over the sorted day keys with a
running counter and a running maximum, reset whenever the current bucket has
fewer than 6 appointments. -/
def predictStressLevel (apps : List Appointment) : Int :=
  if apps.length = 0 then 100 else
  let gapPoints : ℕ := (groupByDayValues apps).foldl
    (fun acc dayEvents =>
      (consecutiveGaps (sortByStartTime dayEvents)).foldl (fun a g => a + gapStressPoints g) acc) 0
  let maxConsecutive : ℕ := ((sortedDayKeys apps).foldl
    (fun (p : ℕ × ℕ) d =>
      if 6 ≤ (dayGroup apps d).length then (p.1 + 1, max p.2 (p.1 + 1)) else (0, p.2))
    (0, 0)).2
  let stressPoints : ℕ := gapPoints + maxConsecutive * 3
  let frac : ℚ := min ((stressPoints : ℚ) / ((apps.length : ℚ) * (1 / 2 : ℚ))) 1
  round ((1 - frac) * 100)

/-- Six dimension weights, fields named as `CONFIG.HARMONY_WEIGHTS`. -/
structure Weights where
  DAILY_LOAD : ℚ
  BREAK_COMPLIANCE : ℚ
  EVENING_WORK : ℚ
  WEEKLY_BALANCE : ℚ
  RECOVERY_ADEQUACY : ℚ
  PREDICTIVE_STRESS : ℚ
deriving DecidableEq

/-- Source `CONFIG.HARMONY_WEIGHTS` (lines 27-34). -/
def baseWeights : Weights := ⟨25, 20, 15, 20, 15, 5⟩

def Weights.total (w : Weights) : ℚ :=
  w.DAILY_LOAD + w.BREAK_COMPLIANCE + w.EVENING_WORK + w.WEEKLY_BALANCE +
    w.RECOVERY_ADEQUACY + w.PREDICTIVE_STRESS

def Weights.scale (w : Weights) (f : ℚ) : Weights :=
  ⟨w.DAILY_LOAD * f, w.BREAK_COMPLIANCE * f, w.EVENING_WORK * f, w.WEEKLY_BALANCE * f,
    w.RECOVERY_ADEQUACY * f, w.PREDICTIVE_STRESS * f⟩

/-- Intensive-day test of `_applyIntelligentWeighting`: some bucket holds at
least 8 appointments. -/
def hasIntensiveDays (apps : List Appointment) : Bool :=
  (groupByDayValues apps).any (fun evs => decide (8 ≤ evs.length))

/-- Adjusted weights of `_applyIntelligentWeighting` before normalization
(lines 1277-1293), applying the two context rules in source order. -/
def adjustedWeightsRaw (apps : List Appointment) : Weights :=
  let w0 := baseWeights
  let w1 :=
    if hasIntensiveDays apps then
      { w0 with BREAK_COMPLIANCE := w0.BREAK_COMPLIANCE + 5, DAILY_LOAD := w0.DAILY_LOAD - 5 }
    else w0
  if totalWorkMinutes apps / 60 > 35 then
    { w1 with WEEKLY_BALANCE := w1.WEEKLY_BALANCE + 5, EVENING_WORK := w1.EVENING_WORK - 5 }
  else w1

/-- Normalized weights (each multiplied by `100 / currentSum`, lines
1295-1301). -/
def adjustedWeights (apps : List Appointment) : Weights :=
  (adjustedWeightsRaw apps).scale (100 / (adjustedWeightsRaw apps).total)

/-- Six dimension sub-scores. -/
structure Breakdown where
  dailyLoad : Int
  breakCompliance : Int
  eveningWork : Int
  weeklyBalance : Int
  recoveryAdequacy : Int
  predictiveStress : Int
deriving DecidableEq

/-- Source `HarmonyEngine._applyIntelligentWeighting` (lines 1273-1313):
the weighted sum of sub-scores over the normalized weights. -/
def applyIntelligentWeighting (b : Breakdown) (apps : List Appointment) : ℚ :=
  (b.dailyLoad : ℚ) / 100 * (adjustedWeights apps).DAILY_LOAD +
    (b.breakCompliance : ℚ) / 100 * (adjustedWeights apps).BREAK_COMPLIANCE +
    (b.eveningWork : ℚ) / 100 * (adjustedWeights apps).EVENING_WORK +
    (b.weeklyBalance : ℚ) / 100 * (adjustedWeights apps).WEEKLY_BALANCE +
    (b.recoveryAdequacy : ℚ) / 100 * (adjustedWeights apps).RECOVERY_ADEQUACY +
    (b.predictiveStress : ℚ) / 100 * (adjustedWeights apps).PREDICTIVE_STRESS

/-- Source `getScoreLevel(score).key` over `CONFIG.THRESHOLDS.SCORE`; the
explicit CRITICAL band [0,29] and the out-of-range fallback both yield
CRITICAL and are collapsed. -/
def getScoreLevelKey (score : Int) : String :=
  if 85 ≤ score ∧ score ≤ 100 then "EXCELLENT"
  else if 70 ≤ score ∧ score ≤ 84 then "GOOD"
  else if 50 ≤ score ∧ score ≤ 69 then "MODERATE"
  else if 30 ≤ score ∧ score ≤ 49 then "WARNING"
  else "CRITICAL"

structure CriticalDay where
  date : Int
  severity : String
  eventCount : ℕ
deriving DecidableEq

def severityRank (sev : String) : ℕ :=
  if sev = "critical" then 3 else if sev = "high" then 2 else 1

/-- Modelled from the spec: `HarmonyEngine._detectCriticalDays` is not among
the provided sources.  Spec section 4.6: per day bucket, highest matching tier
of critical (count at least 12 or hours above 10), high (count in [9,11] or
night work present), medium (count in [7,8] and break-compliance score below
50); unmatched days are not reported. -/
def classifyDay (s : Settings) (d : Int) (dayEvents : List Appointment) : Option CriticalDay :=
  let n := dayEvents.length
  let hours := totalWorkMinutes dayEvents / 60
  if 12 ≤ n ∨ hours > 10 then some ⟨d, "critical", n⟩
  else if (9 ≤ n ∧ n ≤ 11) ∨ dayEvents.any isNightEvent then some ⟨d, "high", n⟩
  else if (7 ≤ n ∧ n ≤ 8) ∧ computeBreakComplianceScore s dayEvents < 50 then some ⟨d, "medium", n⟩
  else none

/-- Stable descending insertion by severity rank (ties keep day order). -/
def insertBySeverity (c : CriticalDay) : List CriticalDay → List CriticalDay
  | [] => [c]
  | e :: r =>
    if severityRank e.severity ≤ severityRank c.severity then c :: e :: r
    else e :: insertBySeverity c r

/-- Modelled from the spec (section 4.6): the critical-day list of
`computeWeeklyScore`, sorted by descending severity, ties in day order. -/
def detectCriticalDaysList (s : Settings) (apps : List Appointment) : List CriticalDay :=
  ((dayKeys apps).filterMap (fun d => classifyDay s d (dayGroup apps d))).foldr insertBySeverity []

/-- Weekly result object; `trends`, `recoveryRecommendation`, `computedAt` and
`version` are omitted because no claim constrains them. -/
structure WeeklyResult where
  score : Int
  level : String
  breakdown : Option Breakdown
  insights : List String
  recommendations : List String
  criticalDays : List CriticalDay
deriving DecidableEq

/-- Generators for the insight and recommendation text.  The source methods
`_analyzeTrends`, `_generateAdvancedInsights` and
`_generateSmartRecommendations` are not among the provided sources and no
claim constrains their success-path output, so the pipeline is parametric in
them; every theorem below holds for all generators. -/
structure Generators where
  insightsF : Breakdown → List Appointment → List String
  recommendationsF : Breakdown → List String

/-- Source `HarmonyEngine._getFallbackScore` (lines 1351-1362). -/
def getFallbackScore : WeeklyResult :=
  { score := 50
    level := "moderate"
    breakdown := none
    insights := ["Données insuffisantes pour une analyse complète."]
    recommendations := []
    criticalDays := [] }

/-- Breakdown computed by `computeWeeklyScore` (lines 876-883). -/
def computeBreakdown (s : Settings) (apps : List Appointment) : Breakdown :=
  { dailyLoad := computeDailyLoadScore apps
    breakCompliance := computeBreakComplianceScore s apps
    eveningWork := computeEveningWorkScore apps
    weeklyBalance := computeWeeklyBalanceScore apps
    recoveryAdequacy := computeRecoveryAdequacyScore s apps
    predictiveStress := predictStressLevel apps }

/-- Body of the `try` block of `HarmonyEngine.computeWeeklyScore`
(lines 870-909). -/
def pipelineBody (g : Generators) (s : Settings) (events : List Appointment) : WeeklyResult :=
  let appointments := filterAppointments events
  let breakdown := computeBreakdown s appointments
  let clampedScore := clampInt (round (applyIntelligentWeighting breakdown appointments)) 0 100
  { score := clampedScore
    level := (getScoreLevelKey clampedScore).toLower
    breakdown := some breakdown
    insights := g.insightsF breakdown appointments
    recommendations := g.recommendationsF breakdown
    criticalDays := detectCriticalDaysList s appointments }

/-- Top-level catch of `computeWeeklyScore` (lines 910-913): an exceptional
pipeline outcome is replaced by the fallback result, a normal one is returned
unchanged. -/
def computeWeeklyScoreFrom (outcome : Except String WeeklyResult) : WeeklyResult :=
  match outcome with
  | .ok r => r
  | .error _ => getFallbackScore

/-- Source `HarmonyEngine.computeWeeklyScore`. -/
def computeWeeklyScore (g : Generators) (s : Settings) (events : List Appointment) : WeeklyResult :=
  computeWeeklyScoreFrom (.ok (pipelineBody g s events))

structure RecoveryRecommendation where
  recommendedHours : ℚ
  recoveryType : String
  recoveryDebt : ℚ
  breakQuality : Int
  actualRecoveryHours : ℚ
  priority : String
deriving DecidableEq

/-- Rounding to one decimal, `Math.round(x * 10) / 10`. -/
def roundTo1 (x : ℚ) : ℚ := (round (x * 10) : ℚ) / 10

/-- Source `HarmonyEngine.calculateRecoveryRecommendation` (lines 1098-1146);
weekly thresholds CRITICAL 60 / DANGER 50 / WARNING 40 hours.  The
`suggestions` field is produced by a method missing from the sources and is
omitted; no claim uses it.  Recovery metrics are the spec-modelled
`calculateRecoveryMetrics`. -/
def calculateRecoveryRecommendation (s : Settings) (events : List Appointment) :
    RecoveryRecommendation :=
  let appointments := filterAppointments events
  let totalHours := totalWorkMinutes appointments / 60
  let dayCount := (dayKeys appointments).length
  let avgDailyHours : ℚ := if 0 < dayCount then totalHours / dayCount else 0
  let m := calculateRecoveryMetrics s appointments
  let base : ℚ × String :=
    if totalHours > 60 then (min 24 ((totalHours - 40) * (4 / 5 : ℚ)), "extended")
    else if totalHours > 50 then (min 16 ((totalHours - 35) * (3 / 5 : ℚ)), "significant")
    else if totalHours > 40 then (min 8 ((totalHours - 32) * (1 / 2 : ℚ)), "moderate")
    else if avgDailyHours > 7 then (4, "light")
    else (0, "none")
  let recommendedRecoveryHours : ℚ :=
    if m.breakQuality < 1 / 2 then base.1 * (13 / 10 : ℚ) else base.1
  let recoveryDebt : ℚ := max 0 (recommendedRecoveryHours - m.actualRecoveryHours)
  { recommendedHours := roundTo1 recommendedRecoveryHours
    recoveryType := base.2
    recoveryDebt := roundTo1 recoveryDebt
    breakQuality := round (m.breakQuality * 100)
    actualRecoveryHours := roundTo1 m.actualRecoveryHours
    priority := if recoveryDebt > 8 then "high" else if recoveryDebt > 4 then "medium" else "low" }

/-- State of the `PredictiveStressModel` instance: the constructor fields
(`patternHistory` and the four `stressIndicators` counters).  The method
`predictStressLevel` never reads or writes any of them. -/
structure PredictiveStressModel where
  patternHistory : List ℚ
  rapidSuccession : Int
  insufficientBreaks : Int
  eveningOverload : Int
  consecutiveIntensive : Int
deriving DecidableEq

/-- Method call on a model instance, threading the instance state: the source
body (lines 1383-1420) uses only local variables, so the state is returned
unchanged and the value is the pure `predictStressLevel`. -/
def PredictiveStressModel.predictStressLevelM (m : PredictiveStressModel)
    (apps : List Appointment) : Int × PredictiveStressModel :=
  (predictStressLevel apps, m)

/-- State of a `HarmonyEngine` instance: merged settings, `historicalData`,
and the predictive sub-model instance. -/
structure HarmonyEngine where
  settings : Settings
  historicalData : List ℚ
  predictiveModel : PredictiveStressModel

/-- Method call `engine.computeWeeklyScore(events)`, threading the engine
state: the source body mutates no instance field. -/
def HarmonyEngine.computeWeeklyScoreM (e : HarmonyEngine) (g : Generators)
    (events : List Appointment) : WeeklyResult × HarmonyEngine :=
  (computeWeeklyScore g e.settings events, e)

/-! Concrete inputs used by counterexamples and witnesses. -/

/-- A confirmed appointment on day `d` from minute `a` to minute `b`. -/
def appt (d : Int) (a b : ℚ) : Appointment := ⟨⟨d, a⟩, ⟨d, b⟩, "appointment", "confirmed"⟩

/-- Nine half-hour appointments on one day (mean and peak daily count 9). -/
def exNineOneDay : List Appointment :=
  [appt 0 480 510, appt 0 540 570, appt 0 600 630, appt 0 660 690, appt 0 720 750,
   appt 0 780 810, appt 0 840 870, appt 0 900 930, appt 0 960 990]

/-- Six half-hour appointments on day `d`, 30-minute gaps (no stress gaps). -/
def intenseDay (d : Int) : List Appointment :=
  [appt d 480 510, appt d 540 570, appt d 600 630, appt d 660 690, appt d 720 750, appt d 780 810]

/-- Two intensive days separated by an empty calendar day. -/
def exTwoIntenseDays : List Appointment := intenseDay 0 ++ intenseDay 2

/-- One day of 7.5 worked hours in two appointments with a 20-minute gap. -/
def recDay (d : Int) : List Appointment := [appt d 480 720, appt d 740 950]

/-- Six such days: 45 worked hours, 2 compliant recovery hours, quality 1. -/
def exRecoveryWeek : List Appointment :=
  recDay 0 ++ recDay 1 ++ recDay 2 ++ recDay 3 ++ recDay 4 ++ recDay 5

/-- Trivial generators (empty insight and recommendation text). -/
def trivialGenerators : Generators := ⟨fun _ _ => [], fun _ => []⟩

/-! Claim-side definitions, written from the words of the claims and of the
spec for comparison with the source embedding above. -/

/-- Mean-count penalty ladder exactly as claim C1 states it: 0 at mean at most
4, 10 at most 6, 20 at most 8, 35 at most 10, else 45. -/
def claimMeanPenaltyC1 (avg : ℚ) : Int :=
  if avg ≤ 4 then 0 else if avg ≤ 6 then 10 else if avg ≤ 8 then 20
  else if avg ≤ 10 then 35 else 45

/-- Maximum-count penalty as claim C1 states it: only the danger tier
(above 8, at most 10: 15 points) and critical tier (above 10: 25 points) of
the same ladder penalize. -/
def claimMaxPenaltyC1 (mx : ℚ) : Int := if mx ≤ 8 then 0 else if mx ≤ 10 then 15 else 25

/-- The Daily Load formula that claim C1 asserts. -/
def dailyLoadScoreClaimC1 (apps : List Appointment) : Int :=
  if apps.length = 0 then 100 else
  let counts : List ℚ := (groupByDayValues apps).map (fun evs => (evs.length : ℚ))
  max 0 (100 - claimMeanPenaltyC1 (average counts) - claimMaxPenaltyC1 (listMax counts) -
    (if variance counts > 9 then 10 else 0))

/-- Amended mean ladder: the code penalizes one band later than claim C1 says
(0 at mean at most 6, 10 on (6,8], 20 on (8,10], 35 on (10,12], 45 above 12). -/
def amendedMeanPenalty (avg : ℚ) : Int :=
  if avg ≤ 6 then 0 else if avg ≤ 8 then 10 else if avg ≤ 10 then 20
  else if avg ≤ 12 then 35 else 45

/-- Amended maximum-count penalty: 15 on (10,12], 25 above 12, else 0. -/
def amendedMaxPenalty (mx : ℚ) : Int := if mx ≤ 10 then 0 else if mx ≤ 12 then 15 else 25

/-- The amended Daily Load formula: 100 minus the amended mean and maximum
penalties, minus 10 when the standard deviation of the per-day counts exceeds
3 (encoded on the variance), floored at 0; empty input scores 100. -/
def dailyLoadScoreAmended (apps : List Appointment) : Int :=
  if apps.length = 0 then 100 else
  let counts : List ℚ := (groupByDayValues apps).map (fun evs => (evs.length : ℚ))
  max 0 (100 - amendedMeanPenalty (average counts) - amendedMaxPenalty (listMax counts) -
    (if variance counts > 9 then 10 else 0))

/-- Zero weight delta. -/
def zeroDelta : Weights := ⟨0, 0, 0, 0, 0, 0⟩

def Weights.add (w v : Weights) : Weights :=
  ⟨w.DAILY_LOAD + v.DAILY_LOAD, w.BREAK_COMPLIANCE + v.BREAK_COMPLIANCE,
    w.EVENING_WORK + v.EVENING_WORK, w.WEEKLY_BALANCE + v.WEEKLY_BALANCE,
    w.RECOVERY_ADEQUACY + v.RECOVERY_ADEQUACY, w.PREDICTIVE_STRESS + v.PREDICTIVE_STRESS⟩

/-- Claim C2's first rule as an additive delta: when some day bucket has at
least 8 appointments, Break Compliance gains 5 and Daily Load loses 5. -/
def intensiveDelta (apps : List Appointment) : Weights :=
  if hasIntensiveDays apps then ⟨-5, 5, 0, 0, 0, 0⟩ else zeroDelta

/-- Claim C2's second rule as an additive delta: when total scheduled hours
exceed 35, Weekly Balance gains 5 and Evening Work loses 5. -/
def longWeekDelta (apps : List Appointment) : Weights :=
  if totalWorkMinutes apps / 60 > 35 then ⟨0, 0, -5, 5, 0, 0⟩ else zeroDelta

/-- Claim C2's adjusted weights: base weights plus the two independent,
additive deltas, then re-normalized by `100 / currentSum`. -/
def adjustedWeightsSpecC2 (apps : List Appointment) : Weights :=
  ((baseWeights.add (intensiveDelta apps)).add (longWeekDelta apps)).scale
    (100 / ((baseWeights.add (intensiveDelta apps)).add (longWeekDelta apps)).total)

/-- The Break Compliance formula claim C4 states: a gap is compliant iff it is
at least `breakDuration` minutes (inclusive boundary), score is
round(compliant / total times 100) plus a 5-point bonus when the mean gap
exceeds 1.5 times `breakDuration`, capped at 100; zero or one appointment
scores 100. -/
def breakComplianceSpecC4 (s : Settings) (l : List Appointment) : Int :=
  if l.length ≤ 1 then 100 else
  let gaps := allGaps l
  let compliant := (gaps.filter (fun g => decide (s.breakDuration ≤ g))).length
  let meanGap := gaps.sum / gaps.length
  min 100 (round ((compliant : ℚ) / gaps.length * 100) +
    (if meanGap > (3 / 2 : ℚ) * s.breakDuration then 5 else 0))

/-- Longest run of `true` entries in a list, with a run of `cur` entries
already open on the left. -/
def longestRunFrom (cur : ℕ) : List Bool → ℕ
  | [] => cur
  | true :: r => longestRunFrom (cur + 1) r
  | false :: r => max cur (longestRunFrom 0 r)

/-- The calendar-consecutive intensive run that claim C3 describes: scanning
the chronologically sorted day keys, a run continues only when the previous
key is the immediately preceding calendar day (an absent day has count 0 and
breaks the run). -/
def claimCalendarRunC3 (apps : List Appointment) : ℕ :=
  ((sortedDayKeys apps).foldl
    (fun (p : Option Int × ℕ × ℕ) d =>
      if 6 ≤ (dayGroup apps d).length then
        let c := if p.1 = some (d - 1) then p.2.1 + 1 else 1
        (some d, c, max p.2.2 c)
      else (some d, 0, p.2.2))
    (none, 0, 0)).2.2

/-- The Predictive Stress formula claim C3 asserts, with the intensive-day
bonus counted over calendar-consecutive runs. -/
def predictStressClaimC3 (apps : List Appointment) : Int :=
  if apps.length = 0 then 100 else
  let pts : ℕ := ((allGaps apps).map gapStressPoints).sum + 3 * claimCalendarRunC3 apps
  let frac : ℚ := min ((pts : ℚ) / ((apps.length : ℚ) * (1 / 2 : ℚ))) 1
  round ((1 - frac) * 100)

/-- Amended Predictive Stress formula: the intensive-day bonus is 3 times the
longest run of consecutive entries of the chronologically sorted list of
nonempty days each holding at least 6 appointments (a calendar day with no
appointments does not appear in the list and does not break a run). -/
def predictStressAmended (apps : List Appointment) : Int :=
  if apps.length = 0 then 100 else
  let pts : ℕ := ((allGaps apps).map gapStressPoints).sum +
    3 * longestRunFrom 0 ((sortedDayKeys apps).map (fun d => decide (6 ≤ (dayGroup apps d).length)))
  let frac : ℚ := min ((pts : ℚ) / ((apps.length : ℚ) * (1 / 2 : ℚ))) 1
  round ((1 - frac) * 100)

/-- The recovery recommendation as spec section 4.8 words it: four mutually
exclusive tiers matched top-down on total worked hours, then the light tier
on mean daily hours, a 1.3 multiplier when break quality is below 0.5, debt
as shortfall against actual recovery hours, and the exclusive-boundary
priority ladder; hour outputs rounded to one decimal. -/
def recoveryRecommendationSpecC5 (s : Settings) (events : List Appointment) :
    RecoveryRecommendation :=
  let apps := filterAppointments events
  let hours := totalWorkMinutes apps / 60
  let days := (dayKeys apps).length
  let meanDaily : ℚ := if days = 0 then 0 else hours / days
  let m := calculateRecoveryMetrics s apps
  let tier : ℚ × String :=
    if hours > 60 then (min 24 ((hours - 40) * (4 / 5 : ℚ)), "extended")
    else if hours > 50 then (min 16 ((hours - 35) * (3 / 5 : ℚ)), "significant")
    else if hours > 40 then (min 8 ((hours - 32) * (1 / 2 : ℚ)), "moderate")
    else if meanDaily > 7 then (4, "light")
    else (0, "none")
  let recHours : ℚ := tier.1 * (if m.breakQuality < 1 / 2 then 13 / 10 else 1)
  let debt : ℚ := max 0 (recHours - m.actualRecoveryHours)
  { recommendedHours := roundTo1 recHours
    recoveryType := tier.2
    recoveryDebt := roundTo1 debt
    breakQuality := round (m.breakQuality * 100)
    actualRecoveryHours := roundTo1 m.actualRecoveryHours
    priority := if debt > 8 then "high" else if debt > 4 then "medium" else "low" }

/-! Helper lemmas. -/

theorem round_mono_q {x y : ℚ} (h : x ≤ y) : round x ≤ round y := by
  rw [round_eq, round_eq]
  exact Int.floor_le_floor (by linarith)

theorem round_nonneg_q {x : ℚ} (h : 0 ≤ x) : 0 ≤ round x := by
  have h2 := round_mono_q h
  simpa using h2

theorem round_le_of_le_int {x : ℚ} {n : ℤ} (h : x ≤ (n : ℚ)) : round x ≤ n := by
  have h2 := round_mono_q h
  simpa [round_intCast] using h2

/-- The code penalty chain on the mean equals minus the amended ladder. -/
theorem meanPen_eq_amended (a : ℚ) :
    (if a > 12 then (-45 : Int) else if a > 10 then -35 else if a > 8 then -20
      else if a > 6 then -10 else 0) = -amendedMeanPenalty a := by
  unfold amendedMeanPenalty
  split_ifs <;> linarith

/-- The code penalty chain on the maximum equals minus the amended ladder. -/
theorem maxPen_eq_amended (m : ℚ) :
    (if m > 12 then (-25 : Int) else if m > 10 then -15 else 0) = -amendedMaxPenalty m := by
  unfold amendedMaxPenalty
  split_ifs <;> linarith

theorem sdPen_eq_neg (v : ℚ) :
    (if v > 9 then (-10 : Int) else 0) = -(if v > 9 then (10 : Int) else 0) := by
  split_ifs <;> norm_num

/-! Theorems for the claims. -/

/-- Claim C1, counterexample.  Nine half-hour appointments on a single day
give per-day counts [9] (mean 9, maximum 9, standard deviation 0).  The code
(`_computeDailyLoadScore`) only subtracts 20 for a mean above the warning
threshold 8 and nothing for a maximum of 9, scoring 80; the ladder claimed by
C1 subtracts 35 (danger tier of the mean) and 15 (danger tier of the maximum),
scoring 50.  So the claimed formula disagrees with the code on this input. -/
theorem dailyLoad_claimC1_counterexample :
    computeDailyLoadScore exNineOneDay = 80 ∧ dailyLoadScoreClaimC1 exNineOneDay = 50 ∧
      computeDailyLoadScore exNineOneDay ≠ dailyLoadScoreClaimC1 exNineOneDay := by
  have h1 : computeDailyLoadScore exNineOneDay = 80 := by
    norm_num [computeDailyLoadScore, exNineOneDay, groupByDayValues, dayKeys, dayGroup, appt,
      average, variance, listMax, round_eq, List.foldl, List.contains,
      List.filter_cons, List.filter_nil]
  have h2 : dailyLoadScoreClaimC1 exNineOneDay = 50 := by
    norm_num [dailyLoadScoreClaimC1, claimMeanPenaltyC1, claimMaxPenaltyC1, exNineOneDay,
      groupByDayValues, dayKeys, dayGroup, appt, average, variance, listMax, round_eq,
      List.foldl, List.contains, List.filter_cons, List.filter_nil]
  refine ⟨h1, h2, ?_⟩
  rw [h1, h2]
  decide

/-- Claim C1 as amended: for every appointment list, the Daily Load sub-score
is 100 minus a mean penalty of 0 / 10 / 20 / 35 / 45 for mean per-day count at
most 6 / at most 8 / at most 10 / at most 12 / above 12, minus a maximum-day
penalty of 15 on (10, 12] and 25 above 12, minus a further 10 when the
standard deviation of the per-day counts exceeds 3, floored at 0; the empty
list scores 100. -/
theorem dailyLoad_amended_eq (apps : List Appointment) :
    computeDailyLoadScore apps = dailyLoadScoreAmended apps := by
  simp only [computeDailyLoadScore, dailyLoadScoreAmended]
  split
  · rfl
  · rw [meanPen_eq_amended, maxPen_eq_amended, sdPen_eq_neg]
    congr 1
    try ring

/-- Claim C2: for every appointment list, the aggregation starts from the base
weights (25/20/15/20/15/5), applies the two independent additive context
rules, re-normalizes by 100 / currentSum so that the six adjusted weights sum
to exactly 100 (hence within 1e-6), and the composite score is the rounded,
clamped weighted sum of subScore/100 times adjustedWeight. -/
theorem weighting_C2 (g : Generators) (s : Settings) (events apps : List Appointment)
    (b : Breakdown) :
    baseWeights = ⟨25, 20, 15, 20, 15, 5⟩ ∧
    adjustedWeights apps = adjustedWeightsSpecC2 apps ∧
    (adjustedWeights apps).total = 100 ∧
    |(adjustedWeights apps).total - 100| ≤ 1 / 1000000 ∧
    applyIntelligentWeighting b apps =
      (b.dailyLoad : ℚ) / 100 * (adjustedWeightsSpecC2 apps).DAILY_LOAD +
        (b.breakCompliance : ℚ) / 100 * (adjustedWeightsSpecC2 apps).BREAK_COMPLIANCE +
        (b.eveningWork : ℚ) / 100 * (adjustedWeightsSpecC2 apps).EVENING_WORK +
        (b.weeklyBalance : ℚ) / 100 * (adjustedWeightsSpecC2 apps).WEEKLY_BALANCE +
        (b.recoveryAdequacy : ℚ) / 100 * (adjustedWeightsSpecC2 apps).RECOVERY_ADEQUACY +
        (b.predictiveStress : ℚ) / 100 * (adjustedWeightsSpecC2 apps).PREDICTIVE_STRESS ∧
    (computeWeeklyScore g s events).score =
      clampInt (round (applyIntelligentWeighting (computeBreakdown s (filterAppointments events))
        (filterAppointments events))) 0 100 := by
  have hW : adjustedWeights apps = adjustedWeightsSpecC2 apps := by
    unfold adjustedWeights adjustedWeightsSpecC2 adjustedWeightsRaw intensiveDelta longWeekDelta
    split_ifs <;>
      simp [baseWeights, Weights.add, Weights.scale, Weights.total, zeroDelta] <;> norm_num
  have hT : (adjustedWeights apps).total = 100 := by
    unfold adjustedWeights adjustedWeightsRaw
    split_ifs <;> simp [baseWeights, Weights.scale, Weights.total] <;> norm_num
  refine ⟨rfl, hW, hT, ?_, ?_, rfl⟩
  · rw [hT]
    norm_num
  · rw [applyIntelligentWeighting, hW]

theorem foldl_gapStressPoints (l : List ℚ) (acc : ℕ) :
    l.foldl (fun a g => a + gapStressPoints g) acc = acc + (l.map gapStressPoints).sum := by
  induction l generalizing acc with
  | nil => simp
  | cons x xs ih => simp [ih, Nat.add_assoc]

theorem foldl_days_gapStressPoints (ds : List (List Appointment)) (acc : ℕ) :
    ds.foldl (fun acc2 dayEvents =>
        (consecutiveGaps (sortByStartTime dayEvents)).foldl (fun a g => a + gapStressPoints g) acc2)
      acc
      = acc + (((ds.map (fun de => consecutiveGaps (sortByStartTime de))).flatten).map
          gapStressPoints).sum := by
  induction ds generalizing acc with
  | nil => simp
  | cons d ds ih =>
    rw [List.foldl_cons, ih, foldl_gapStressPoints, List.map_cons, List.flatten_cons,
      List.map_append, List.sum_append, Nat.add_assoc]

theorem longestRunFrom_ge (l : List Bool) (cur : ℕ) : cur ≤ longestRunFrom cur l := by
  induction l generalizing cur with
  | nil => simp [longestRunFrom]
  | cons b r ih =>
    cases b
    · simp only [longestRunFrom]
      exact le_max_left _ _
    · simp only [longestRunFrom]
      exact le_trans (Nat.le_succ cur) (ih (cur + 1))

/-- The source running-counter and running-maximum fold computes the longest
run of `true` entries. -/
theorem foldl_run_eq (l : List Bool) (cur best : ℕ) (h : cur ≤ best) :
    (l.foldl (fun p b => if b then (p.1 + 1, max p.2 (p.1 + 1)) else (0, p.2)) (cur, best)).2
      = max best (longestRunFrom cur l) := by
  induction l generalizing cur best with
  | nil => simp [longestRunFrom, max_eq_left h]
  | cons b r ih =>
    cases b
    · rw [List.foldl_cons]
      simp only [Bool.false_eq_true, if_false]
      rw [ih 0 best (Nat.zero_le _), longestRunFrom]
      rw [← max_assoc, max_eq_left h]
    · rw [List.foldl_cons]
      simp only [if_true]
      rw [ih (cur + 1) (max best (cur + 1)) (le_max_right _ _), longestRunFrom]
      rw [max_assoc, max_eq_right (longestRunFrom_ge r (cur + 1))]

theorem foldl_cond_eq_map (apps : List Appointment) (ds : List Int) (p : ℕ × ℕ) :
    ds.foldl (fun q d =>
        if 6 ≤ (dayGroup apps d).length then (q.1 + 1, max q.2 (q.1 + 1)) else (0, q.2)) p
      = (ds.map (fun d => decide (6 ≤ (dayGroup apps d).length))).foldl
          (fun q b => if b then (q.1 + 1, max q.2 (q.1 + 1)) else (0, q.2)) p := by
  induction ds generalizing p with
  | nil => rfl
  | cons d ds ih =>
    rw [List.map_cons, List.foldl_cons, List.foldl_cons, ih]
    congr 1
    by_cases h : 6 ≤ (dayGroup apps d).length <;> simp [h]

/-- Claim C3, counterexample.  Twelve appointments: six on day 0 and six on
day 2, gaps of 30 minutes (no rapid-succession points), nothing on day 1.
The source fold counts the two intensive entries of the sorted key list
[0, 2] as one run of length 2 (6 bonus points, stress score 0); the
calendar-consecutive run of the claim has length 1 (3 points, score 50). -/
theorem predictStress_claimC3_counterexample :
    predictStressLevel exTwoIntenseDays = 0 ∧ predictStressClaimC3 exTwoIntenseDays = 50 ∧
      predictStressLevel exTwoIntenseDays ≠ predictStressClaimC3 exTwoIntenseDays := by
  have h1 : predictStressLevel exTwoIntenseDays = 0 := by
    norm_num [predictStressLevel, exTwoIntenseDays, intenseDay, appt, groupByDayValues, dayKeys,
      dayGroup, sortedDayKeys, insertInt, allGaps, consecutiveGaps, sortByStartTime,
      insertByStart, minutesBetween, Timestamp.absMinutes, gapStressPoints, round_eq,
      List.foldl, List.foldr, List.contains, List.filter_cons, List.filter_nil]
  have h2 : predictStressClaimC3 exTwoIntenseDays = 50 := by
    norm_num [predictStressClaimC3, claimCalendarRunC3, exTwoIntenseDays, intenseDay, appt,
      groupByDayValues, dayKeys, dayGroup, sortedDayKeys, insertInt, allGaps, consecutiveGaps,
      sortByStartTime, insertByStart, minutesBetween, Timestamp.absMinutes, gapStressPoints,
      round_eq, List.foldl, List.foldr, List.contains, List.filter_cons, List.filter_nil]
  refine ⟨h1, h2, ?_⟩
  rw [h1, h2]
  decide

/-- Claim C3 as amended: for every appointment list, the Predictive Stress
score is round((1 - frac) * 100) with frac = min(points / (count * 0.5), 1),
where points adds 2 per intra-day consecutive gap under 10 minutes, 1 per gap
in [10, 20), and 3 times the longest run of consecutive entries of the
chronologically sorted list of nonempty days each holding at least 6
appointments (a calendar day without appointments does not break a run); the
empty list returns 100. -/
theorem predictStress_amended_eq (apps : List Appointment) :
    predictStressLevel apps = predictStressAmended apps := by
  simp only [predictStressLevel, predictStressAmended, allGaps]
  split
  · rfl
  · rw [foldl_days_gapStressPoints, foldl_cond_eq_map, foldl_run_eq _ 0 0 le_rfl]
    simp [Nat.mul_comm]

/-- Claim C4: for every appointment list, the Break Compliance sub-score is
100 for fewer than two appointments; with at least two appointments and at
least one intra-day gap it equals the claimed formula
min(100, round(compliant / total * 100) + bonus) with the inclusive compliance
boundary gap at least breakDuration; and two same-day appointments separated by
exactly breakDuration minutes score 100 (the boundary gap counts as
compliant). -/
theorem breakCompliance_C4 (s : Settings) (l : List Appointment)
    (hbd : 0 < s.breakDuration) :
    (l.length < 2 → computeBreakComplianceScore s l = 100) ∧
    (2 ≤ l.length → 0 < (allGaps l).length →
      computeBreakComplianceScore s l = breakComplianceSpecC4 s l) ∧
    (∀ a b : Appointment, a.start.day = b.start.day →
      a.start.absMinutes ≤ b.start.absMinutes →
      minutesBetween a.«end» b.start = s.breakDuration →
      computeBreakComplianceScore s [a, b] = 100) := by
  refine ⟨?_, ?_, ?_⟩
  · intro h
    simp only [computeBreakComplianceScore]
    rw [if_pos h]
  · intro h2 hg
    have hne : (allGaps l).length ≠ 0 := Nat.pos_iff_ne_zero.mp hg
    simp only [computeBreakComplianceScore, breakComplianceSpecC4]
    rw [if_neg (show ¬l.length < 2 by omega), if_neg (show ¬l.length ≤ 1 by omega),
      if_neg hne, if_neg hne, mul_comm s.breakDuration (3 / 2 : ℚ)]
  · intro a b hday hle hgap
    have hkeys : dayKeys [a, b] = [a.start.day] := by
      simp [dayKeys, List.foldl, hday]
    have hgroup : dayGroup [a, b] a.start.day = [a, b] := by
      simp [dayGroup, List.filter_cons, List.filter_nil, hday]
    have hsort : sortByStartTime [a, b] = [a, b] := by
      simp [sortByStartTime, insertByStart, List.foldr, hle]
    have hgaps : allGaps [a, b] = [s.breakDuration] := by
      simp [allGaps, groupByDayValues, hkeys, hgroup, hsort, consecutiveGaps, hgap]
    simp only [computeBreakComplianceScore, hgaps]
    norm_num [List.filter_cons, List.filter_nil]
    try rw [if_neg (by linarith)]
    try norm_num [round_ofNat]

/-- Witness for claim C4 at concrete inputs: two confirmed appointments on day
0 with exactly the default 20-minute break between them score 100. -/
theorem breakCompliance_C4_witness :
    computeBreakComplianceScore ⟨20⟩ [appt 0 480 600, appt 0 620 740] = 100 := by
  refine (breakCompliance_C4 ⟨20⟩ [] (by norm_num)).2.2 (appt 0 480 600) (appt 0 620 740)
    rfl ?_ ?_
  · norm_num [appt, Timestamp.absMinutes]
  · norm_num [appt, minutesBetween, Timestamp.absMinutes]

set_option maxHeartbeats 2000000 in
/-- Claim C5, counterexample.  A week of six 7.5-hour days totalling 45 worked
hours with exactly 2 compliant recovery hours (break quality 1).  Claim C5
expects the danger tier ("significant", 6.0 hours, debt 4.0, priority "low"),
but 45 is not above the danger threshold 50: the code takes the warning tier
min(8, (45 - 32) * 0.5) = 6.5 ("moderate"), debt 4.5, priority "medium". -/
theorem recovery_C5_counterexample :
    totalWorkMinutes (filterAppointments exRecoveryWeek) / 60 = 45 ∧
    (calculateRecoveryMetrics defaultSettings
      (filterAppointments exRecoveryWeek)).actualRecoveryHours = 2 ∧
    (calculateRecoveryRecommendation defaultSettings exRecoveryWeek).recoveryType = "moderate" ∧
    (calculateRecoveryRecommendation defaultSettings exRecoveryWeek).recommendedHours = 13 / 2 ∧
    (calculateRecoveryRecommendation defaultSettings exRecoveryWeek).recoveryDebt = 9 / 2 ∧
    (calculateRecoveryRecommendation defaultSettings exRecoveryWeek).priority = "medium" := by
  norm_num [calculateRecoveryRecommendation, defaultSettings, exRecoveryWeek, recDay, appt,
    filterAppointments, calculateRecoveryMetrics, totalWorkMinutes, minutesBetween,
    Timestamp.absMinutes, dayKeys, dayGroup, groupByDayValues, allGaps, consecutiveGaps,
    sortByStartTime, insertByStart, roundTo1, round_eq, List.foldl, List.foldr, List.contains,
    List.filter_cons, List.filter_nil]

theorem if_mul_thirteen (c : Prop) [Decidable c] (x : ℚ) :
    (if c then x * (13 / 10 : ℚ) else x) = x * (if c then (13 / 10 : ℚ) else 1) := by
  split_ifs <;> simp

theorem if_pos_zero_swap (n : ℕ) (x : ℚ) :
    (if 0 < n then x else 0) = (if n = 0 then 0 else x) := by
  split_ifs <;> first | rfl | omega

/-- Claim C5 as amended: calculateRecoveryRecommendation picks the first
matching tier top-down exactly as claimed, multiplies by 1.3 below break
quality 0.5, takes debt = max(0, recommended - actual) and the exclusive
priority boundaries, so a week of 45 worked hours with 2 actual recovery
hours (break quality at least 0.5) yields type "moderate",
recommendedHours 6.5, recoveryDebt 4.5, priority "medium". -/
theorem recovery_C5_amended (s : Settings) (events : List Appointment) :
    calculateRecoveryRecommendation s events = recoveryRecommendationSpecC5 s events := by
  simp only [calculateRecoveryRecommendation, recoveryRecommendationSpecC5,
    if_mul_thirteen, if_pos_zero_swap]

theorem computeDailyLoadScore_bounds (l : List Appointment) :
    0 ≤ computeDailyLoadScore l ∧ computeDailyLoadScore l ≤ 100 := by
  simp only [computeDailyLoadScore]
  split
  · norm_num
  · refine ⟨le_max_left _ _, ?_⟩
    apply max_le (by norm_num)
    split_ifs <;> norm_num

theorem computeBreakComplianceScore_bounds (s : Settings) (l : List Appointment) :
    0 ≤ computeBreakComplianceScore s l ∧ computeBreakComplianceScore s l ≤ 100 := by
  simp only [computeBreakComplianceScore]
  split
  · norm_num
  · refine ⟨le_min (by norm_num) (add_nonneg ?_ ?_), min_le_left _ _⟩
    · apply round_nonneg_q
      apply mul_nonneg ?_ (by norm_num)
      split_ifs
      · norm_num
      · positivity
    · split_ifs <;> norm_num

theorem computeEveningWorkScore_bounds (l : List Appointment) :
    0 ≤ computeEveningWorkScore l ∧ computeEveningWorkScore l ≤ 100 := by
  simp only [computeEveningWorkScore]
  split
  · norm_num
  · refine ⟨le_max_left _ _, max_le (by norm_num) ?_⟩
    refine round_le_of_le_int ?_
    have hq1 : (0:ℚ) ≤ ((l.filter isEveningEvent).length : ℚ) / (l.length : ℚ) * 40 := by
      positivity
    have hq2 : (0:ℚ) ≤ ((l.filter isNightEvent).length : ℚ) / (l.length : ℚ) * 60 := by
      positivity
    push_cast
    linarith

theorem weeklyBalanceOfHours_bounds (hrs : ℚ) :
    0 ≤ weeklyBalanceOfHours hrs ∧ weeklyBalanceOfHours hrs ≤ 100 := by
  unfold weeklyBalanceOfHours
  split_ifs with h0 h25 h32 h40 h50
  · norm_num
  · norm_num
  · refine ⟨le_trans (by norm_num) (le_max_left _ _), max_le (by norm_num) ?_⟩
    have hr := round_nonneg_q (show (0:ℚ) ≤ (hrs - 25) * 3 by nlinarith)
    omega
  · refine ⟨le_trans (by norm_num) (le_max_left _ _), max_le (by norm_num) ?_⟩
    have hr := round_nonneg_q (show (0:ℚ) ≤ (hrs - 32) * (5 / 2 : ℚ) by nlinarith)
    omega
  · refine ⟨le_trans (by norm_num) (le_max_left _ _), max_le (by norm_num) ?_⟩
    have hr := round_nonneg_q (show (0:ℚ) ≤ (hrs - 40) * 3 by nlinarith)
    omega
  · refine ⟨le_max_left _ _, max_le (by norm_num) ?_⟩
    have hr := round_nonneg_q (show (0:ℚ) ≤ (hrs - 50) * 2 by nlinarith)
    omega

theorem sum_filter_ge_nonneg (s : Settings) (hbd : 0 ≤ s.breakDuration) (gaps : List ℚ) :
    0 ≤ (gaps.filter (fun g => decide (s.breakDuration ≤ g))).sum := by
  apply List.sum_nonneg
  intro g hg
  have h2 := List.of_mem_filter hg
  simp only [decide_eq_true_eq] at h2
  exact le_trans hbd h2

theorem computeRecoveryAdequacyScore_bounds (s : Settings) (l : List Appointment)
    (hbd : 0 ≤ s.breakDuration) :
    0 ≤ computeRecoveryAdequacyScore s l ∧ computeRecoveryAdequacyScore s l ≤ 100 := by
  simp only [computeRecoveryAdequacyScore, calculateRecoveryMetrics]
  split
  · norm_num
  · split
    · norm_num
    · rename_i hge
      rw [ge_iff_le, not_le] at hge
      have ha : (0:ℚ) ≤ ((allGaps l).filter (fun g => decide (s.breakDuration ≤ g))).sum / 60 :=
        div_nonneg (sum_filter_ge_nonneg s hbd (allGaps l)) (by norm_num)
      have hI : (0:ℚ) < totalWorkMinutes l / 60 * (1 / 4) := lt_of_le_of_lt ha hge
      constructor
      · exact round_nonneg_q (mul_nonneg (div_nonneg ha (le_of_lt hI)) (by norm_num))
      · apply round_le_of_le_int
        have hdiv : ((allGaps l).filter (fun g => decide (s.breakDuration ≤ g))).sum / 60 /
            (totalWorkMinutes l / 60 * (1 / 4)) ≤ 1 := (div_le_one hI).mpr (le_of_lt hge)
        push_cast
        nlinarith

theorem round_one_sub_frac_bounds (f : ℚ) (hf0 : 0 ≤ f) (hf1 : f ≤ 1) :
    0 ≤ round ((1 - f) * 100) ∧ round ((1 - f) * 100) ≤ 100 := by
  constructor
  · exact round_nonneg_q (by nlinarith)
  · exact round_le_of_le_int (by push_cast; nlinarith)

theorem predictStressLevel_bounds (l : List Appointment) :
    0 ≤ predictStressLevel l ∧ predictStressLevel l ≤ 100 := by
  simp only [predictStressLevel]
  split
  · norm_num
  · refine round_one_sub_frac_bounds _ ?_ ?_
    · exact le_min (by positivity) (by norm_num)
    · exact min_le_right _ _

theorem clampInt_bounds (v : Int) : 0 ≤ clampInt v 0 100 ∧ clampInt v 0 100 ≤ 100 := by
  unfold clampInt
  omega

/-- Claim C6: for every input event list (including the empty list) and every
settings object within the documented domain (nonnegative breakDuration,
default 20 minutes), each of the six dimension sub-scores in the breakdown and
the composite score returned by computeWeeklyScore lies in [0, 100]; scores
are Int-valued by construction, recording that every scorer returns a
mathematical integer. -/
theorem bounds_C6 (g : Generators) (s : Settings) (events : List Appointment)
    (hbd : 0 ≤ s.breakDuration) :
    (computeWeeklyScore g s events).breakdown =
      some (computeBreakdown s (filterAppointments events)) ∧
    (0 ≤ (computeBreakdown s (filterAppointments events)).dailyLoad ∧
      (computeBreakdown s (filterAppointments events)).dailyLoad ≤ 100) ∧
    (0 ≤ (computeBreakdown s (filterAppointments events)).breakCompliance ∧
      (computeBreakdown s (filterAppointments events)).breakCompliance ≤ 100) ∧
    (0 ≤ (computeBreakdown s (filterAppointments events)).eveningWork ∧
      (computeBreakdown s (filterAppointments events)).eveningWork ≤ 100) ∧
    (0 ≤ (computeBreakdown s (filterAppointments events)).weeklyBalance ∧
      (computeBreakdown s (filterAppointments events)).weeklyBalance ≤ 100) ∧
    (0 ≤ (computeBreakdown s (filterAppointments events)).recoveryAdequacy ∧
      (computeBreakdown s (filterAppointments events)).recoveryAdequacy ≤ 100) ∧
    (0 ≤ (computeBreakdown s (filterAppointments events)).predictiveStress ∧
      (computeBreakdown s (filterAppointments events)).predictiveStress ≤ 100) ∧
    (0 ≤ (computeWeeklyScore g s events).score ∧
      (computeWeeklyScore g s events).score ≤ 100) := by
  refine ⟨rfl, ?_, ?_, ?_, ?_, ?_, ?_, ?_⟩
  · exact computeDailyLoadScore_bounds _
  · exact computeBreakComplianceScore_bounds s _
  · exact computeEveningWorkScore_bounds _
  · exact weeklyBalanceOfHours_bounds _
  · exact computeRecoveryAdequacyScore_bounds s _ hbd
  · exact predictStressLevel_bounds _
  · exact clampInt_bounds _

/-- Witness for claim C6: the default settings satisfy the hypothesis and the
composite score of the empty event list is within bounds. -/
theorem bounds_C6_witness :
    0 ≤ (computeWeeklyScore trivialGenerators defaultSettings []).score ∧
      (computeWeeklyScore trivialGenerators defaultSettings []).score ≤ 100 :=
  (bounds_C6 trivialGenerators defaultSettings [] (by norm_num [defaultSettings])).2.2.2.2.2.2.2

/-- Claim C7: on the empty event list computeWeeklyScore returns composite
score 100, every one of the six sub-scores is 100, and the critical-day list
is empty (the critical-day detector is spec-modelled; on an empty input it
has no day bucket to report). -/
theorem emptyInput_C7 (g : Generators) (s : Settings) :
    (computeWeeklyScore g s []).score = 100 ∧
    (computeWeeklyScore g s []).breakdown = some ⟨100, 100, 100, 100, 100, 100⟩ ∧
    (computeWeeklyScore g s []).criticalDays = [] := by
  refine ⟨?_, ?_, ?_⟩ <;>
    norm_num [computeWeeklyScore, computeWeeklyScoreFrom, pipelineBody, computeBreakdown,
      filterAppointments, computeDailyLoadScore, computeBreakComplianceScore,
      computeEveningWorkScore, computeWeeklyBalanceScore, weeklyBalanceOfHours,
      computeRecoveryAdequacyScore, predictStressLevel, totalWorkMinutes,
      applyIntelligentWeighting, adjustedWeights, adjustedWeightsRaw, baseWeights,
      hasIntensiveDays, groupByDayValues, dayKeys, Weights.scale, Weights.total,
      clampInt, round_eq, detectCriticalDaysList, List.foldl, List.filter_nil]

/-- Claim C8: an exceptional outcome anywhere in the weekly-score pipeline is
not propagated; the entry point returns the documented fallback result with
score 50, level "moderate", empty breakdown, exactly one generic insight and
no recommendations, while a normal outcome is returned unchanged, so the
caller always receives a well-formed result object. -/
theorem fallback_C8 (e : String) (r : WeeklyResult) :
    computeWeeklyScoreFrom (.error e) = getFallbackScore ∧
    computeWeeklyScoreFrom (.ok r) = r ∧
    getFallbackScore.score = 50 ∧
    getFallbackScore.level = "moderate" ∧
    getFallbackScore.breakdown = none ∧
    getFallbackScore.insights = ["Données insuffisantes pour une analyse complète."] ∧
    getFallbackScore.recommendations = [] :=
  ⟨rfl, rfl, rfl, rfl, rfl, rfl, rfl⟩

/-- Claim C9: the scorer entry points are deterministic functions of their
inputs with no hidden state: the predictive sub-model call yields the same
value from any two instance states and leaves the state unchanged, and
calling computeWeeklyScore twice on the same engine yields identical results
with the engine state unchanged. -/
theorem stateless_C9 (m1 m2 : PredictiveStressModel) (e : HarmonyEngine) (g : Generators)
    (events apps : List Appointment) :
    (m1.predictStressLevelM apps).1 = (m2.predictStressLevelM apps).1 ∧
    (m1.predictStressLevelM apps).2 = m1 ∧
    (e.computeWeeklyScoreM g events).2 = e ∧
    ((e.computeWeeklyScoreM g events).2.computeWeeklyScoreM g events).1
      = (e.computeWeeklyScoreM g events).1 :=
  ⟨rfl, rfl, rfl, rfl⟩

theorem wb_eq_100_of_le_25 {hrs : ℚ} (h : hrs ≤ 25) : weeklyBalanceOfHours hrs = 100 := by
  unfold weeklyBalanceOfHours
  split_ifs <;> rfl

theorem wb_ge_80_of_le_32 {hrs : ℚ} (h : hrs ≤ 32) : 80 ≤ weeklyBalanceOfHours hrs := by
  unfold weeklyBalanceOfHours
  split_ifs <;> norm_num

theorem wb_ge_60_of_le_40 {hrs : ℚ} (h : hrs ≤ 40) : 60 ≤ weeklyBalanceOfHours hrs := by
  unfold weeklyBalanceOfHours
  split_ifs <;> norm_num

theorem wb_ge_30_of_le_50 {hrs : ℚ} (h : hrs ≤ 50) : 30 ≤ weeklyBalanceOfHours hrs := by
  unfold weeklyBalanceOfHours
  split_ifs <;> norm_num

theorem wb_le_80_of_gt_32 {hrs : ℚ} (h : 32 < hrs) : weeklyBalanceOfHours hrs ≤ 80 := by
  unfold weeklyBalanceOfHours
  split_ifs with h0 h25 h32 h40 h50
  · linarith
  · linarith
  · linarith
  · apply max_le (by norm_num)
    have hr := round_nonneg_q (show (0:ℚ) ≤ (hrs - 32) * (5 / 2 : ℚ) by nlinarith)
    omega
  · apply max_le (by norm_num)
    have hr := round_nonneg_q (show (0:ℚ) ≤ (hrs - 40) * 3 by nlinarith)
    omega
  · apply max_le (by norm_num)
    have hr := round_nonneg_q (show (0:ℚ) ≤ (hrs - 50) * 2 by nlinarith)
    omega

theorem wb_le_60_of_gt_40 {hrs : ℚ} (h : 40 < hrs) : weeklyBalanceOfHours hrs ≤ 60 := by
  unfold weeklyBalanceOfHours
  split_ifs with h0 h25 h32 h40 h50
  · linarith
  · linarith
  · linarith
  · linarith
  · apply max_le (by norm_num)
    have hr := round_nonneg_q (show (0:ℚ) ≤ (hrs - 40) * 3 by nlinarith)
    omega
  · apply max_le (by norm_num)
    have hr := round_nonneg_q (show (0:ℚ) ≤ (hrs - 50) * 2 by nlinarith)
    omega

theorem wb_le_30_of_gt_50 {hrs : ℚ} (h : 50 < hrs) : weeklyBalanceOfHours hrs ≤ 30 := by
  unfold weeklyBalanceOfHours
  split_ifs with h0 h25 h32 h40 h50
  · linarith
  · linarith
  · linarith
  · linarith
  · linarith
  · apply max_le (by norm_num)
    have hr := round_nonneg_q (show (0:ℚ) ≤ (hrs - 50) * 2 by nlinarith)
    omega

/-- The Weekly Balance hours-to-score map never increases with hours. -/
theorem weeklyBalanceOfHours_antitone {h1 h2 : ℚ} (h : h1 ≤ h2) :
    weeklyBalanceOfHours h2 ≤ weeklyBalanceOfHours h1 := by
  rcases le_or_lt h1 25 with c1 | c1
  · rw [wb_eq_100_of_le_25 c1]
    exact (weeklyBalanceOfHours_bounds h2).2
  rcases le_or_lt h1 32 with c2 | c2
  · rcases le_or_lt h2 32 with d2 | d2
    · have e1 : weeklyBalanceOfHours h1 = max 80 (100 - round ((h1 - 25) * 3)) := by
        unfold weeklyBalanceOfHours
        rw [if_neg (ne_of_gt (show (0:ℚ) < h1 by linarith)), if_neg (by linarith), if_pos c2]
      have e2 : weeklyBalanceOfHours h2 = max 80 (100 - round ((h2 - 25) * 3)) := by
        unfold weeklyBalanceOfHours
        rw [if_neg (ne_of_gt (show (0:ℚ) < h2 by linarith)), if_neg (by linarith), if_pos d2]
      rw [e1, e2]
      apply max_le_max le_rfl
      have hm := round_mono_q (show (h1 - 25) * 3 ≤ (h2 - 25) * 3 by nlinarith)
      omega
    · exact le_trans (wb_le_80_of_gt_32 d2) (wb_ge_80_of_le_32 c2)
  rcases le_or_lt h1 40 with c3 | c3
  · rcases le_or_lt h2 40 with d3 | d3
    · have e1 : weeklyBalanceOfHours h1 = max 60 (80 - round ((h1 - 32) * (5 / 2 : ℚ))) := by
        unfold weeklyBalanceOfHours
        rw [if_neg (ne_of_gt (show (0:ℚ) < h1 by linarith)), if_neg (by linarith),
          if_neg (by linarith), if_pos c3]
      have e2 : weeklyBalanceOfHours h2 = max 60 (80 - round ((h2 - 32) * (5 / 2 : ℚ))) := by
        unfold weeklyBalanceOfHours
        rw [if_neg (ne_of_gt (show (0:ℚ) < h2 by linarith)), if_neg (by linarith),
          if_neg (by linarith), if_pos d3]
      rw [e1, e2]
      apply max_le_max le_rfl
      have hm := round_mono_q (show (h1 - 32) * (5 / 2 : ℚ) ≤ (h2 - 32) * (5 / 2 : ℚ) by nlinarith)
      omega
    · exact le_trans (wb_le_60_of_gt_40 d3) (wb_ge_60_of_le_40 c3)
  rcases le_or_lt h1 50 with c4 | c4
  · rcases le_or_lt h2 50 with d4 | d4
    · have e1 : weeklyBalanceOfHours h1 = max 30 (60 - round ((h1 - 40) * 3)) := by
        unfold weeklyBalanceOfHours
        rw [if_neg (ne_of_gt (show (0:ℚ) < h1 by linarith)), if_neg (by linarith),
          if_neg (by linarith), if_neg (by linarith), if_pos c4]
      have e2 : weeklyBalanceOfHours h2 = max 30 (60 - round ((h2 - 40) * 3)) := by
        unfold weeklyBalanceOfHours
        rw [if_neg (ne_of_gt (show (0:ℚ) < h2 by linarith)), if_neg (by linarith),
          if_neg (by linarith), if_neg (by linarith), if_pos d4]
      rw [e1, e2]
      apply max_le_max le_rfl
      have hm := round_mono_q (show (h1 - 40) * 3 ≤ (h2 - 40) * 3 by nlinarith)
      omega
    · exact le_trans (wb_le_30_of_gt_50 d4) (wb_ge_30_of_le_50 c4)
  · have e1 : weeklyBalanceOfHours h1 = max 0 (30 - round ((h1 - 50) * 2)) := by
      unfold weeklyBalanceOfHours
      rw [if_neg (ne_of_gt (show (0:ℚ) < h1 by linarith)), if_neg (by linarith),
        if_neg (by linarith), if_neg (by linarith), if_neg (by linarith)]
    have e2 : weeklyBalanceOfHours h2 = max 0 (30 - round ((h2 - 50) * 2)) := by
      unfold weeklyBalanceOfHours
      rw [if_neg (ne_of_gt (show (0:ℚ) < h2 by linarith)), if_neg (by linarith),
        if_neg (by linarith), if_neg (by linarith), if_neg (by linarith)]
    rw [e1, e2]
    apply max_le_max le_rfl
    have hm := round_mono_q (show (h1 - 50) * 2 ≤ (h2 - 50) * 2 by nlinarith)
    omega

/-- Claim C10: the Weekly Balance sub-score is non-increasing in the total
scheduled minutes (so the four linear decay segments meet their floors 80, 60,
30, 0 at the band boundaries 25, 32, 40, 50 hours with no upward jump), and
appending one appointment of nonnegative duration never increases it. -/
theorem weeklyBalance_monotone_C10 (l1 l2 l : List Appointment) (a : Appointment)
    (h12 : totalWorkMinutes l1 ≤ totalWorkMinutes l2)
    (ha : a.start.absMinutes ≤ a.«end».absMinutes) :
    computeWeeklyBalanceScore l2 ≤ computeWeeklyBalanceScore l1 ∧
    computeWeeklyBalanceScore (l ++ [a]) ≤ computeWeeklyBalanceScore l := by
  constructor
  · apply weeklyBalanceOfHours_antitone
    exact (div_le_div_iff_of_pos_right (by norm_num)).mpr h12
  · apply weeklyBalanceOfHours_antitone
    apply (div_le_div_iff_of_pos_right (show (0:ℚ) < 60 by norm_num)).mpr
    have hadd : totalWorkMinutes (l ++ [a])
        = totalWorkMinutes l + minutesBetween a.start a.«end» := by
      simp [totalWorkMinutes, List.foldl_append]
    rw [hadd]
    have hd : 0 ≤ minutesBetween a.start a.«end» := by
      simp only [minutesBetween]
      linarith
    linarith

/-- Witness for claim C10: adding a one-hour appointment to the empty list
does not increase the Weekly Balance sub-score. -/
theorem weeklyBalance_C10_witness :
    computeWeeklyBalanceScore [appt 0 480 540] ≤ computeWeeklyBalanceScore [] ∧
    computeWeeklyBalanceScore ([] ++ [appt 0 480 540]) ≤ computeWeeklyBalanceScore [] :=
  weeklyBalance_monotone_C10 [] [appt 0 480 540] [] (appt 0 480 540)
    (by norm_num [totalWorkMinutes, minutesBetween, Timestamp.absMinutes, appt, List.foldl])
    (by norm_num [appt, Timestamp.absMinutes])

end Harmony
